import Mathlib

/-!
Verification of the provider-dispatch and prompt-composition layer of the
Biblical-ai backend (src/server.js). The prompt composer `systemFor` and the
`/api/generate` handler are embedded shallowly: string constants are copied
byte-for-byte from the source, the handler becomes a pure function over an
explicit environment, request body and transport function, and the list of
outbound network calls is returned alongside the HTTP result so that
"no network call" properties can be stated.
-/

set_option maxRecDepth 1000000

/-! ## Prompt composer (src/server.js, function systemFor, lines 111–193) -/

/-- `GENERAL_GUIDELINES` of `systemFor`: the fixed doctrinal/tone policy block,
joined from its source lines with a single space. -/
def GENERAL_GUIDELINES : String := String.intercalate " " [
  "Default Scripture is NKJV — quote verbatim or reference.",
  "All content should be biblically accurate and align with sound Evangelical Christian doctrine, with an emphasis on Pentecostal beliefs.",
  "Illustrations must be current and relevant to a modern audience.",
  "Tone: warm, authoritative, and compassionate; 'Human‑First' — avoid mechanical, robotic, or formulaic language.",
  "All content must be Christ‑centered and bring glory to God."
]

/-- `HUMAN_VOICE` of `systemFor`: the fixed voice/style policy block. -/
def HUMAN_VOICE : String := String.intercalate " " [
  "Write with a natural, pastoral human voice.",
  "Vary sentence length: mix short, punchy lines with longer, more reflective sentences.",
  "Use contractions (you’ll, we’re, don’t) and occasional rhetorical questions.",
  "Prefer paragraphs over bullet lists unless the structure explicitly requires lists.",
  "Avoid boilerplate phrases like 'in conclusion', 'in today’s fast-paced world', or 'this article will'.",
  "Avoid meta-language (do not say 'as an AI', 'this essay will').",
  "Include concrete, real-life details (e.g., a Tuesday commute, a grocery line, a late-night hospital visit) when illustrating.",
  "Allow mild, tasteful disfluencies for cadence (e.g., a fragment for emphasis).",
  "Keep tone warm, authentic, unpretentious; prioritize clarity over flourish."
]

/-- The `ROLE` constant of the `sermonCrafter` branch. -/
def SC_ROLE : String :=
  "You are Pentecostal and biblically sound; your communication style is 'Human‑First'—warm, intellectually stimulating, and deeply authentic."

/-- The `ASSIGNMENT` constant of the `sermonCrafter`/`outline` branch. -/
def SC_ASSIGNMENT_OUTLINE : String := String.intercalate " " [
  "You follow a strict two‑step workflow for sermon creation.",
  "Step 1 (current): Generate a structured sermon outline that includes:",
  "• A compelling, concise introduction summary.",
  "• 3–5 distinct sermon points for the body; each point briefly states a biblical truth that will be explored.",
  "• A concise conclusion that reinforces the main message.",
  "Then STOP and wait for explicit user approval. Do NOT write the full sermon."
]

/-- The `ASSIGNMENT_FULL` constant of the `sermonCrafter` non-outline branch. -/
def SC_ASSIGNMENT_FULL : String := String.intercalate " " [
  "Step 2: The user has approved the outline.",
  "Generate a COMPLETE sermon that strictly follows the approved outline and this exact structure:",
  "• Introduction (~200 words): An engaging passage that introduces the topic and hooks the listener.",
  "• Body (~1700 words): For each of the 3–5 sermon points, produce a complete teaching unit:",
  "  - A thorough explanation of the designated Scripture, including its original context.",
  "  - A clear breakdown of the theological principles (sound doctrine) found in the text.",
  "  - A modern, relatable story, analogy, or anecdote that makes the point tangible and memorable.",
  "  - Clear, actionable steps for listeners to apply the biblical truth to their daily lives.",
  "• Conclusion (~200 words): A strong wrap‑up that reinforces the main message and encourages application."
]

/-- The `ROLE` constant of the `sermonEnhancer` branch. -/
def SE_ROLE : String :=
  "You are a seasoned Pastor, master of Homiletics, and expert Speechwriter, Pentecostal and biblically sound, with a 'Human‑First' style—warm, intellectually stimulating, and deeply authentic."

/-- The `ASSIGNMENT` constant of the `sermonEnhancer` branch. -/
def SE_ASSIGNMENT : String := String.intercalate " " [
  "Perform TWO distinct tasks in a single response:",
  "1) Analyze the draft for clarity, theological flow, and emotional resonance.",
  "2) Then rewrite the sermon (~2000 words) for spoken delivery, optimizing for the ear (cadence, signposting, repetition for emphasis)."
]

/-- The `ROLE` constant of the `bibleStudyTool` branch. -/
def BS_ROLE : String := "Act as an expert Bible study curriculum writer."

/-- The `ASSIGNMENT` constant of the `bibleStudyTool` branch. -/
def BS_ASSIGNMENT : String := String.intercalate " " [
  "Create comprehensive, practical, and engaging Bible study guides for any provided topic.",
  "Emphasize practical, real-world application for today's Christian in every guide.",
  "Ensure all interpretations are biblically accurate and align with Christian doctrine.",
  "Integrate relevant illustrations or analogies to clarify and make concepts relatable.",
  "Structure every guide using EXACTLY these four sections:",
  "  • Icebreaker: Begin with a brief, relevant question or activity to open discussion.",
  "  • Discussion Questions: Provide ~8 insightful questions based on the passage/topic, EACH with a suggested answer to guide the study leader.",
  "  • Application: Provide clear, actionable steps that participants can practice this week.",
  "  • Prayer: Close with a short, heartfelt prayer aligned with the study's main message.",
  "Maintain a helpful, neutral, respectful, Christ-like tone in all responses."
]

/-- The `ROLE` constant of the `biblicalApplications` branch. -/
def BA_ROLE : String := "You are a biblically faithful teacher focused on practical discipleship."

/-- The `ASSIGNMENT` constant of the `biblicalApplications` branch. -/
def BA_ASSIGNMENT : String :=
  "Given a passage or topic, list concrete life applications with Scripture support."

/-- The fallback role sentence of `systemFor`'s final template literal. -/
def FALLBACK_ROLE : String := "You are a helpful assistant for pastoral ministry."

/-- `systemFor(task, mode)`: the prompt composer. Each known-task branch
returns the template literal ROLE\nASSIGNMENT\nGENERAL_GUIDELINES\nHUMAN_VOICE;
the final fallback is the space-separated template literal of line 192. -/
def systemFor (task : String) (mode : String) : String :=
  if task = "sermonCrafter" then
    if mode = "outline" then
      SC_ROLE ++ "\n" ++ SC_ASSIGNMENT_OUTLINE ++ "\n" ++ GENERAL_GUIDELINES ++ "\n" ++ HUMAN_VOICE
    else
      SC_ROLE ++ "\n" ++ SC_ASSIGNMENT_FULL ++ "\n" ++ GENERAL_GUIDELINES ++ "\n" ++ HUMAN_VOICE
  else if task = "sermonEnhancer" then
    SE_ROLE ++ "\n" ++ SE_ASSIGNMENT ++ "\n" ++ GENERAL_GUIDELINES ++ "\n" ++ HUMAN_VOICE
  else if task = "bibleStudyTool" then
    BS_ROLE ++ "\n" ++ BS_ASSIGNMENT ++ "\n" ++ GENERAL_GUIDELINES ++ "\n" ++ HUMAN_VOICE
  else if task = "biblicalApplications" then
    BA_ROLE ++ "\n" ++ BA_ASSIGNMENT ++ "\n" ++ GENERAL_GUIDELINES ++ "\n" ++ HUMAN_VOICE
  else
    FALLBACK_ROLE ++ " " ++ GENERAL_GUIDELINES ++ " " ++ HUMAN_VOICE

/-! ## Substring search (used to state "the prompt contains …" properties) -/

/-- `hasSubAux pat s = true` iff `pat` occurs as a contiguous run inside `s`. -/
def hasSubAux (pat : List Char) : List Char → Bool
  | [] => pat.isEmpty
  | a :: as => pat.isPrefixOf (a :: as) || hasSubAux pat as

/-- `containsStr s pat = true` iff the string `pat` occurs byte-identically as
a contiguous substring of `s`. -/
def containsStr (s pat : String) : Bool := hasSubAux pat.data s.data

/-! ## Generation dispatcher (src/server.js, POST /api/generate, lines 34–107)

The Express handler is embedded as a pure function. `process.env` becomes an
explicit `Env` (a JS env var is falsy when absent or the empty string);
`req.body` becomes `Option ReqBody` (none models an absent/falsy body, handled
by `req.body || {}`); `fetch` becomes an explicit transport function from the
outbound request to the vendor's response. The handler returns the HTTP
response together with the list of network calls it performed, so that
"no network call" properties are statable. The only `throw` sites inside the
`try` are the credential checks; the surrounding `catch` turns the thrown
message into a 500 result, which the embedding applies directly. -/

/-- The process environment fields read by the handler. -/
structure Env where
  OPENAI_API_KEY : Option String
  GOOGLE_API_KEY : Option String
  AZURE_OPENAI_KEY : Option String
  AZURE_OPENAI_ENDPOINT : Option String
  AZURE_OPENAI_DEPLOYMENT : Option String
deriving DecidableEq

/-- JS truthiness of an optional string: absent and `""` are falsy. -/
def truthy : Option String → Bool
  | none => false
  | some s => !(s == "")

/-- The fields destructured from `req.body`; `none` models an absent field. -/
structure ReqBody where
  provider : Option String
  task : Option String
  input : Option String
  mode : Option String
deriving DecidableEq

/-- One outbound `fetch` POST: URL, headers, and the JSON body's fields
(model when present, (role, content) message list, sampling parameters kept
as their JSON source text). -/
structure FetchCall where
  url : String
  headers : List (String × String)
  model : Option String
  messages : List (String × String)
  temperature : String
  presencePenalty : Option String
  frequencyPenalty : Option String
deriving DecidableEq

/-- `message` object of an OpenAI-style choice (`content` may be absent). -/
structure ChatMessage where
  content : Option String
deriving DecidableEq

/-- One element of an OpenAI-style `choices` array (`message` may be absent). -/
structure ChatChoice where
  message : Option ChatMessage
deriving DecidableEq

/-- One element of a Gemini candidate's `content.parts` (`text` may be absent;
`join` renders an absent text as the empty string). -/
structure GemPart where
  text : Option String
deriving DecidableEq

/-- `content` object of a Gemini candidate (`parts` may be absent). -/
structure GemContent where
  parts : Option (List GemPart)
deriving DecidableEq

/-- One element of a Gemini `candidates` array (`content` may be absent). -/
structure GemCandidate where
  content : Option GemContent
deriving DecidableEq

/-- The vendor response JSON, covering both shapes the handler navigates:
OpenAI-style `choices` and Gemini-style `candidates`. -/
structure VendorJson where
  choices : Option (List ChatChoice)
  candidates : Option (List GemCandidate)
deriving DecidableEq

/-- A vendor HTTP response: `r.ok`, `await r.text()` and `await r.json()`. -/
structure FetchResp where
  ok : Bool
  text : String
  json : VendorJson
deriving DecidableEq

/-- The handler's HTTP reply: 200 `{ok:true, output}`, 400 `{ok:false, error}`
or 500 `{ok:false, error}`. -/
inductive ApiResponse where
  | success (output : String)
  | clientError (error : String)
  | serverError (error : String)
deriving DecidableEq

/-- The HTTP status code of each reply shape. -/
def ApiResponse.status : ApiResponse → Nat
  | .success _ => 200
  | .clientError _ => 400
  | .serverError _ => 500

/-- `data.choices?.[0]?.message?.content ?? ''` (lines 59 and 99). -/
def extractChatText (j : VendorJson) : String :=
  match j.choices with
  | none => ""
  | some cs =>
    match cs.head? with
    | none => ""
    | some c =>
      match c.message with
      | none => ""
      | some m => m.content.getD ""

/-- `data.candidates?.[0]?.content?.parts?.map(p=>p.text).join('') ?? ''`
(line 77); `join` renders an absent `text` as the empty string. -/
def extractGeminiText (j : VendorJson) : String :=
  match j.candidates with
  | none => ""
  | some cs =>
    match cs.head? with
    | none => ""
    | some c =>
      match c.content with
      | none => ""
      | some co =>
        match co.parts with
        | none => ""
        | some ps => String.join (ps.map (fun p => p.text.getD ""))

/-- The outbound request of the `chatgpt` branch (lines 43–56). -/
def chatgptBuildRequest (key system input : String) : FetchCall :=
  ⟨"https://api.openai.com/v1/chat/completions",
   [("Authorization", "Bearer " ++ key), ("Content-Type", "application/json")],
   some "gpt-4o-mini",
   [("system", system), ("user", input)],
   "0.85", some "0.2", some "0.2"⟩

/-- The hard-coded Gemini model name (line 65). -/
def geminiModel : String := "gemini-2.5-flash"

/-- The outbound request of the `gemini` branch (lines 66–74): system and user
text merged into one user-role message. -/
def geminiBuildRequest (key system input : String) : FetchCall :=
  ⟨"https://generativelanguage.googleapis.com/v1beta/models/" ++ geminiModel ++ ":generateContent",
   [("x-goog-api-key", key), ("Content-Type", "application/json")],
   none,
   [("user", system ++ "\n\nUser:\n" ++ input)],
   "0.7", none, none⟩

/-- The outbound request of the `copilot` branch (lines 86–96). -/
def copilotBuildRequest (key ep dep system input : String) : FetchCall :=
  ⟨ep ++ "/openai/deployments/" ++ dep ++ "/chat/completions?api-version=2024-06-01",
   [("api-key", key), ("Content-Type", "application/json")],
   none,
   [("system", system), ("user", input)],
   "0.85", some "0.2", some "0.2"⟩

/-- The POST /api/generate handler (lines 34–107) over an explicit
environment, transport and optional request body. Returns the HTTP reply and
the list of outbound fetch calls performed. -/
def generateHandler (env : Env) (transport : FetchCall → FetchResp)
    (body : Option ReqBody) : ApiResponse × List FetchCall :=
  let b := body.getD ⟨none, none, none, none⟩
  let provider := b.provider.getD "chatgpt"
  let mode := b.mode.getD "default"
  if !truthy b.task || !truthy b.input then
    (ApiResponse.clientError "task and input required", [])
  else
    let task := b.task.getD ""
    let input := b.input.getD ""
    let system := systemFor task mode
    if provider = "chatgpt" then
      if !truthy env.OPENAI_API_KEY then
        (ApiResponse.serverError "OPENAI_API_KEY missing", [])
      else
        let call := chatgptBuildRequest (env.OPENAI_API_KEY.getD "") system input
        let r := transport call
        if !r.ok then (ApiResponse.serverError r.text, [call])
        else (ApiResponse.success (extractChatText r.json), [call])
    else if provider = "gemini" then
      if !truthy env.GOOGLE_API_KEY then
        (ApiResponse.serverError "GOOGLE_API_KEY missing", [])
      else
        let call := geminiBuildRequest (env.GOOGLE_API_KEY.getD "") system input
        let r := transport call
        if !r.ok then (ApiResponse.serverError r.text, [call])
        else (ApiResponse.success (extractGeminiText r.json), [call])
    else if provider = "copilot" then
      if !truthy env.AZURE_OPENAI_KEY || !truthy env.AZURE_OPENAI_ENDPOINT
          || !truthy env.AZURE_OPENAI_DEPLOYMENT then
        (ApiResponse.serverError "Azure OpenAI env missing", [])
      else
        let call := copilotBuildRequest (env.AZURE_OPENAI_KEY.getD "")
          (env.AZURE_OPENAI_ENDPOINT.getD "") (env.AZURE_OPENAI_DEPLOYMENT.getD "")
          system input
        let r := transport call
        if !r.ok then (ApiResponse.serverError r.text, [call])
        else (ApiResponse.success (extractChatText r.json), [call])
    else
      (ApiResponse.clientError "Unknown provider", [])

/-! ## Helper lemmas about string append and substring search -/

theorem strData_append (s t : String) : (s ++ t).data = s.data ++ t.data := by
  cases s; cases t; rfl

theorem strAppend_assoc (a b c : String) : (a ++ b) ++ c = a ++ (b ++ c) := by
  cases a; cases b; cases c
  show String.mk _ = String.mk _
  simp [String.append, List.append_assoc]

theorem isPrefixOf_self_append (t q : List Char) : t.isPrefixOf (t ++ q) = true := by
  induction t with
  | nil => simp [List.isPrefixOf]
  | cons a as ih => simp [List.isPrefixOf, ih]

theorem hasSubAux_of_isPrefixOf (t s : List Char) (h : t.isPrefixOf s = true) :
    hasSubAux t s = true := by
  cases s with
  | nil =>
    cases t with
    | nil => rfl
    | cons a as => simp [List.isPrefixOf] at h
  | cons a as => simp [hasSubAux, h]

theorem hasSubAux_append_left (p t s : List Char) (h : hasSubAux t s = true) :
    hasSubAux t (p ++ s) = true := by
  induction p with
  | nil => simpa using h
  | cons a as ih =>
    have e : hasSubAux t ((a :: as) ++ s) =
        (t.isPrefixOf (a :: (as ++ s)) || hasSubAux t (as ++ s)) := rfl
    rw [e, ih, Bool.or_true]

theorem containsStr_of_append (x t y : String) : containsStr (x ++ (t ++ y)) t = true := by
  unfold containsStr
  rw [strData_append, strData_append]
  exact hasSubAux_append_left _ _ _
    (hasSubAux_of_isPrefixOf _ _ (isPrefixOf_self_append _ _))

theorem containsStr_of_append_end (x t : String) : containsStr (x ++ t) t = true := by
  unfold containsStr
  rw [strData_append]
  refine hasSubAux_append_left _ _ _ (hasSubAux_of_isPrefixOf _ _ ?_)
  have h := isPrefixOf_self_append t.data []
  rwa [List.append_nil] at h

theorem containsStr_of_self_append (t y : String) : containsStr (t ++ y) t = true := by
  unfold containsStr
  rw [strData_append]
  exact hasSubAux_of_isPrefixOf _ _ (isPrefixOf_self_append _ _)

theorem contains_gg_block (r a : String) :
    containsStr (r ++ "\n" ++ a ++ "\n" ++ GENERAL_GUIDELINES ++ "\n" ++ HUMAN_VOICE)
      GENERAL_GUIDELINES = true := by
  have h := containsStr_of_append (r ++ "\n" ++ a ++ "\n") GENERAL_GUIDELINES ("\n" ++ HUMAN_VOICE)
  simpa [strAppend_assoc] using h

theorem contains_hv_block (r a : String) :
    containsStr (r ++ "\n" ++ a ++ "\n" ++ GENERAL_GUIDELINES ++ "\n" ++ HUMAN_VOICE)
      HUMAN_VOICE = true := by
  have h := containsStr_of_append_end (r ++ "\n" ++ a ++ "\n" ++ GENERAL_GUIDELINES ++ "\n") HUMAN_VOICE
  simpa [strAppend_assoc] using h

/-- The fallback prompt returned for every unrecognized task (line 192). -/
def FALLBACK_PROMPT : String := FALLBACK_ROLE ++ " " ++ GENERAL_GUIDELINES ++ " " ++ HUMAN_VOICE

theorem contains_gg_fallback : containsStr FALLBACK_PROMPT GENERAL_GUIDELINES = true := by
  have h := containsStr_of_append (FALLBACK_ROLE ++ " ") GENERAL_GUIDELINES (" " ++ HUMAN_VOICE)
  simpa [FALLBACK_PROMPT, strAppend_assoc] using h

theorem contains_hv_fallback : containsStr FALLBACK_PROMPT HUMAN_VOICE = true := by
  have h := containsStr_of_append_end (FALLBACK_ROLE ++ " " ++ GENERAL_GUIDELINES ++ " ") HUMAN_VOICE
  simpa [FALLBACK_PROMPT, strAppend_assoc] using h

theorem systemFor_fallback_eq (task mode : String)
    (h1 : task ≠ "sermonCrafter") (h2 : task ≠ "sermonEnhancer")
    (h3 : task ≠ "bibleStudyTool") (h4 : task ≠ "biblicalApplications") :
    systemFor task mode = FALLBACK_PROMPT := by
  simp [systemFor, FALLBACK_PROMPT, h1, h2, h3, h4]

theorem systemFor_sc_full_eq (mode : String) (h : mode ≠ "outline") :
    systemFor "sermonCrafter" mode =
      SC_ROLE ++ "\n" ++ SC_ASSIGNMENT_FULL ++ "\n" ++ GENERAL_GUIDELINES ++ "\n" ++ HUMAN_VOICE := by
  simp [systemFor, h]

/-! ## Claims about the prompt composer -/

/-- C1 (counterexample): the claimed shape fails for an unrecognized task —
the fallback prompt of line 192 is space-separated and has no assignment
block, so it is not a newline-separated concatenation ending in the two
guideline blocks. -/
theorem composed_prompt_shape_counterexample :
    ¬ ∃ r a : String, systemFor "outlineHelper" "default" =
      r ++ "\n" ++ a ++ "\n" ++ GENERAL_GUIDELINES ++ "\n" ++ HUMAN_VOICE := by
  rintro ⟨r, a, h⟩
  have hn : ('\n' : Char) ∈ (systemFor "outlineHelper" "default").data := by
    rw [h]
    simp only [strData_append]
    exact List.mem_append_left _ (List.mem_append_right _ (by decide))
  have hno : ('\n' : Char) ∉ (systemFor "outlineHelper" "default").data := by decide
  exact hno hn

/-- C1 (amended): for each of the four recognized tasks the composed prompt is
exactly role, assignment, general guidelines, voice guidelines in that order,
newline-separated; for every unrecognized task the composer instead returns the
fallback prompt — the generic role sentence and the two guideline blocks,
space-separated, with no assignment block. -/
theorem composed_prompt_shape_amended :
    (∀ mode : String,
      systemFor "sermonCrafter" "outline" =
        SC_ROLE ++ "\n" ++ SC_ASSIGNMENT_OUTLINE ++ "\n" ++ GENERAL_GUIDELINES ++ "\n" ++ HUMAN_VOICE
      ∧ (mode ≠ "outline" → systemFor "sermonCrafter" mode =
          SC_ROLE ++ "\n" ++ SC_ASSIGNMENT_FULL ++ "\n" ++ GENERAL_GUIDELINES ++ "\n" ++ HUMAN_VOICE)
      ∧ systemFor "sermonEnhancer" mode =
          SE_ROLE ++ "\n" ++ SE_ASSIGNMENT ++ "\n" ++ GENERAL_GUIDELINES ++ "\n" ++ HUMAN_VOICE
      ∧ systemFor "bibleStudyTool" mode =
          BS_ROLE ++ "\n" ++ BS_ASSIGNMENT ++ "\n" ++ GENERAL_GUIDELINES ++ "\n" ++ HUMAN_VOICE
      ∧ systemFor "biblicalApplications" mode =
          BA_ROLE ++ "\n" ++ BA_ASSIGNMENT ++ "\n" ++ GENERAL_GUIDELINES ++ "\n" ++ HUMAN_VOICE)
    ∧ (∀ task mode : String,
        task ≠ "sermonCrafter" → task ≠ "sermonEnhancer" →
        task ≠ "bibleStudyTool" → task ≠ "biblicalApplications" →
        systemFor task mode = FALLBACK_ROLE ++ " " ++ GENERAL_GUIDELINES ++ " " ++ HUMAN_VOICE) := by
  constructor
  · intro mode
    refine ⟨by simp [systemFor], fun h => systemFor_sc_full_eq mode h, ?_, ?_, ?_⟩
    · simp [systemFor]
    · simp [systemFor]
    · simp [systemFor]
  · intro task mode h1 h2 h3 h4
    exact systemFor_fallback_eq task mode h1 h2 h3 h4

/-- C1 (witness for the amended form): concrete instances of the
non-outline branch and of the fallback branch. -/
theorem composed_prompt_shape_amended_witness :
    systemFor "sermonCrafter" "full" =
      SC_ROLE ++ "\n" ++ SC_ASSIGNMENT_FULL ++ "\n" ++ GENERAL_GUIDELINES ++ "\n" ++ HUMAN_VOICE
    ∧ systemFor "essayWriter" "default" =
      FALLBACK_ROLE ++ " " ++ GENERAL_GUIDELINES ++ " " ++ HUMAN_VOICE :=
  ⟨(composed_prompt_shape_amended.1 "full").2.1 (by decide),
   composed_prompt_shape_amended.2 "essayWriter" "default"
     (by decide) (by decide) (by decide) (by decide)⟩

/-- The outline-stop instruction of the `sermonCrafter`/`outline` assignment
(line 141). -/
def STOP_INSTRUCTION : String :=
  "Then STOP and wait for explicit user approval. Do NOT write the full sermon."

/-- The full-sermon word-count line for the introduction (line 148). -/
def WC_INTRO : String := "• Introduction (~200 words):"

/-- The full-sermon word-count line for the body (line 149). -/
def WC_BODY : String := "• Body (~1700 words):"

/-- The full-sermon word-count line for the conclusion (line 154). -/
def WC_CONCLUSION : String := "• Conclusion (~200 words):"

/-- C2: the outline-mode sermonCrafter prompt contains the stop instruction
and none of the three word-count structure markers; for any other mode the
sermonCrafter prompt contains all three word-count markers and not the stop
instruction. -/
theorem sermon_crafter_two_phase (mode : String) :
    (containsStr (systemFor "sermonCrafter" "outline") STOP_INSTRUCTION = true
     ∧ containsStr (systemFor "sermonCrafter" "outline") WC_INTRO = false
     ∧ containsStr (systemFor "sermonCrafter" "outline") WC_BODY = false
     ∧ containsStr (systemFor "sermonCrafter" "outline") WC_CONCLUSION = false)
    ∧ (mode ≠ "outline" →
       containsStr (systemFor "sermonCrafter" mode) WC_INTRO = true
       ∧ containsStr (systemFor "sermonCrafter" mode) WC_BODY = true
       ∧ containsStr (systemFor "sermonCrafter" mode) WC_CONCLUSION = true
       ∧ containsStr (systemFor "sermonCrafter" mode) STOP_INSTRUCTION = false) := by
  constructor
  · exact ⟨by decide, by decide, by decide, by decide⟩
  · intro h
    rw [systemFor_sc_full_eq mode h]
    exact ⟨by decide, by decide, by decide, by decide⟩

/-- C2 (witness): the default mode instantiates the non-outline half. -/
theorem sermon_crafter_two_phase_witness :
    containsStr (systemFor "sermonCrafter" "default") WC_INTRO = true
    ∧ containsStr (systemFor "sermonCrafter" "default") WC_BODY = true
    ∧ containsStr (systemFor "sermonCrafter" "default") WC_CONCLUSION = true
    ∧ containsStr (systemFor "sermonCrafter" "default") STOP_INSTRUCTION = false :=
  (sermon_crafter_two_phase "default").2 (by decide)

/-- C3: the composer is total by construction, and for every unrecognized
task (the empty string included) and every mode it returns the fallback
prompt, which contains the generic pastoral-assistant role text and both
guideline blocks. -/
theorem compose_total_fallback (task mode : String)
    (h1 : task ≠ "sermonCrafter") (h2 : task ≠ "sermonEnhancer")
    (h3 : task ≠ "bibleStudyTool") (h4 : task ≠ "biblicalApplications") :
    systemFor task mode = FALLBACK_PROMPT
    ∧ containsStr (systemFor task mode) FALLBACK_ROLE = true
    ∧ containsStr (systemFor task mode) GENERAL_GUIDELINES = true
    ∧ containsStr (systemFor task mode) HUMAN_VOICE = true := by
  have e := systemFor_fallback_eq task mode h1 h2 h3 h4
  refine ⟨e, ?_, ?_, ?_⟩ <;> rw [e]
  · have h := containsStr_of_self_append FALLBACK_ROLE
      (" " ++ GENERAL_GUIDELINES ++ " " ++ HUMAN_VOICE)
    simpa [FALLBACK_PROMPT, strAppend_assoc] using h
  · exact contains_gg_fallback
  · exact contains_hv_fallback

/-- C3 (witness): the empty task string falls back. -/
theorem compose_total_fallback_witness :
    systemFor "" "default" = FALLBACK_PROMPT
    ∧ containsStr (systemFor "" "default") FALLBACK_ROLE = true
    ∧ containsStr (systemFor "" "default") GENERAL_GUIDELINES = true
    ∧ containsStr (systemFor "" "default") HUMAN_VOICE = true :=
  compose_total_fallback "" "default" (by decide) (by decide) (by decide) (by decide)

/-- C8: the general-guidelines and voice-guidelines blocks occur
byte-identically inside the composed prompt for every task and mode. -/
theorem guideline_blocks_invariant (task mode : String) :
    containsStr (systemFor task mode) GENERAL_GUIDELINES = true
    ∧ containsStr (systemFor task mode) HUMAN_VOICE = true := by
  unfold systemFor
  split_ifs
  · exact ⟨contains_gg_block _ _, contains_hv_block _ _⟩
  · exact ⟨contains_gg_block _ _, contains_hv_block _ _⟩
  · exact ⟨contains_gg_block _ _, contains_hv_block _ _⟩
  · exact ⟨contains_gg_block _ _, contains_hv_block _ _⟩
  · exact ⟨contains_gg_block _ _, contains_hv_block _ _⟩
  · exact ⟨contains_gg_fallback, contains_hv_fallback⟩

/-- C9: for every task other than sermonCrafter the mode argument is ignored:
any two modes compose to identical prompt text. -/
theorem mode_ignored_for_other_tasks (task : String) (h : task ≠ "sermonCrafter")
    (m1 m2 : String) : systemFor task m1 = systemFor task m2 := by
  simp [systemFor, h]

/-- C9 (witness): bibleStudyTool composes identically under two modes. -/
theorem mode_ignored_for_other_tasks_witness :
    systemFor "bibleStudyTool" "outline" = systemFor "bibleStudyTool" "default" :=
  mode_ignored_for_other_tasks "bibleStudyTool" (by decide) "outline" "default"

/-! ## Claims about the generation dispatcher -/

theorem truthy_some (s : String) : truthy (some s) = !(s == "") := rfl

theorem truthy_none : truthy none = false := rfl

/-- C4: a request with missing/empty task or input is answered with the
client-error result and no network call; a request whose provider field is
present but not one of chatgpt, gemini, copilot is answered with the
unknown-provider client error and no network call. -/
theorem dispatch_validation :
    (∀ (env : Env) (tr : FetchCall → FetchResp) (b : ReqBody),
      truthy b.task = false ∨ truthy b.input = false →
      generateHandler env tr (some b) = (ApiResponse.clientError "task and input required", []))
    ∧ (∀ (env : Env) (tr : FetchCall → FetchResp) (p task input : String) (m : Option String),
      task ≠ "" → input ≠ "" →
      p ≠ "chatgpt" → p ≠ "gemini" → p ≠ "copilot" →
      generateHandler env tr (some ⟨some p, some task, some input, m⟩) =
        (ApiResponse.clientError "Unknown provider", [])) := by
  constructor
  · intro env tr b hb
    rcases hb with h | h <;> simp [generateHandler, h]
  · intro env tr p task input m ht hi h1 h2 h3
    simp [generateHandler, truthy_some, ht, hi, h1, h2, h3]

/-- C4 (witness): empty task, then an unknown provider. -/
theorem dispatch_validation_witness :
    generateHandler ⟨none, none, none, none, none⟩ (fun _ => ⟨true, "", ⟨none, none⟩⟩)
      (some ⟨none, some "", some "x", none⟩) =
      (ApiResponse.clientError "task and input required", [])
    ∧ generateHandler ⟨none, none, none, none, none⟩ (fun _ => ⟨true, "", ⟨none, none⟩⟩)
      (some ⟨some "claude", some "bibleStudyTool", some "John 3", none⟩) =
      (ApiResponse.clientError "Unknown provider", []) :=
  ⟨dispatch_validation.1 _ _ _ (Or.inl (by decide)),
   dispatch_validation.2 _ _ _ _ _ _ (by decide) (by decide)
     (by decide) (by decide) (by decide)⟩

/-- C5: a valid request whose selected provider misses a required credential
is answered with the 500 configuration-error result carrying the thrown
message, before any network call; that result differs from every client-error
result. -/
theorem dispatch_missing_credentials :
    (∀ (env : Env) (tr : FetchCall → FetchResp) (task input : String) (m : Option String),
      task ≠ "" → input ≠ "" → truthy env.OPENAI_API_KEY = false →
      generateHandler env tr (some ⟨some "chatgpt", some task, some input, m⟩) =
        (ApiResponse.serverError "OPENAI_API_KEY missing", []))
    ∧ (∀ (env : Env) (tr : FetchCall → FetchResp) (task input : String) (m : Option String),
      task ≠ "" → input ≠ "" → truthy env.GOOGLE_API_KEY = false →
      generateHandler env tr (some ⟨some "gemini", some task, some input, m⟩) =
        (ApiResponse.serverError "GOOGLE_API_KEY missing", []))
    ∧ (∀ (env : Env) (tr : FetchCall → FetchResp) (task input : String) (m : Option String),
      task ≠ "" → input ≠ "" →
      truthy env.AZURE_OPENAI_KEY = false ∨ truthy env.AZURE_OPENAI_ENDPOINT = false
        ∨ truthy env.AZURE_OPENAI_DEPLOYMENT = false →
      generateHandler env tr (some ⟨some "copilot", some task, some input, m⟩) =
        (ApiResponse.serverError "Azure OpenAI env missing", []))
    ∧ (∀ e c : String, ApiResponse.serverError e ≠ ApiResponse.clientError c) := by
  refine ⟨?_, ?_, ?_, ?_⟩
  · intro env tr task input m ht hi hk
    simp [generateHandler, truthy_some, ht, hi, hk]
  · intro env tr task input m ht hi hk
    simp [generateHandler, truthy_some, ht, hi, hk]
  · intro env tr task input m ht hi hk
    rcases hk with h | h | h <;> simp [generateHandler, truthy_some, ht, hi, h]
  · intro e c h
    cases h

/-- C5 (witness): the chatgpt branch with no OPENAI_API_KEY configured, plus
the distinctness of the two error shapes at concrete texts. -/
theorem dispatch_missing_credentials_witness :
    generateHandler ⟨none, some "g", some "az", some "ep", some "dep"⟩
      (fun _ => ⟨true, "", ⟨none, none⟩⟩)
      (some ⟨some "chatgpt", some "biblicalApplications", some "Joseph", none⟩) =
      (ApiResponse.serverError "OPENAI_API_KEY missing", [])
    ∧ ApiResponse.serverError "OPENAI_API_KEY missing" ≠
      ApiResponse.clientError "task and input required" :=
  ⟨dispatch_missing_credentials.1 _ _ _ _ _ (by decide) (by decide) (by decide),
   dispatch_missing_credentials.2.2.2 _ _⟩

/-- C6: when the vendor answers with a non-success status, the handler
returns the 500 upstream-error result whose error text is exactly the
vendor's response body, for each of the three providers. -/
theorem dispatch_upstream_passthrough :
    (∀ (env : Env) (tr : FetchCall → FetchResp) (task input mo : String),
      task ≠ "" → input ≠ "" → truthy env.OPENAI_API_KEY = true →
      (tr (chatgptBuildRequest (env.OPENAI_API_KEY.getD "") (systemFor task mo) input)).ok = false →
      generateHandler env tr (some ⟨some "chatgpt", some task, some input, some mo⟩) =
        (ApiResponse.serverError
          (tr (chatgptBuildRequest (env.OPENAI_API_KEY.getD "") (systemFor task mo) input)).text,
         [chatgptBuildRequest (env.OPENAI_API_KEY.getD "") (systemFor task mo) input]))
    ∧ (∀ (env : Env) (tr : FetchCall → FetchResp) (task input mo : String),
      task ≠ "" → input ≠ "" → truthy env.GOOGLE_API_KEY = true →
      (tr (geminiBuildRequest (env.GOOGLE_API_KEY.getD "") (systemFor task mo) input)).ok = false →
      generateHandler env tr (some ⟨some "gemini", some task, some input, some mo⟩) =
        (ApiResponse.serverError
          (tr (geminiBuildRequest (env.GOOGLE_API_KEY.getD "") (systemFor task mo) input)).text,
         [geminiBuildRequest (env.GOOGLE_API_KEY.getD "") (systemFor task mo) input]))
    ∧ (∀ (env : Env) (tr : FetchCall → FetchResp) (task input mo : String),
      task ≠ "" → input ≠ "" →
      truthy env.AZURE_OPENAI_KEY = true → truthy env.AZURE_OPENAI_ENDPOINT = true →
      truthy env.AZURE_OPENAI_DEPLOYMENT = true →
      (tr (copilotBuildRequest (env.AZURE_OPENAI_KEY.getD "") (env.AZURE_OPENAI_ENDPOINT.getD "")
        (env.AZURE_OPENAI_DEPLOYMENT.getD "") (systemFor task mo) input)).ok = false →
      generateHandler env tr (some ⟨some "copilot", some task, some input, some mo⟩) =
        (ApiResponse.serverError
          (tr (copilotBuildRequest (env.AZURE_OPENAI_KEY.getD "") (env.AZURE_OPENAI_ENDPOINT.getD "")
            (env.AZURE_OPENAI_DEPLOYMENT.getD "") (systemFor task mo) input)).text,
         [copilotBuildRequest (env.AZURE_OPENAI_KEY.getD "") (env.AZURE_OPENAI_ENDPOINT.getD "")
            (env.AZURE_OPENAI_DEPLOYMENT.getD "") (systemFor task mo) input])) := by
  refine ⟨?_, ?_, ?_⟩
  · intro env tr task input mo ht hi hk hr
    simp [generateHandler, truthy_some, ht, hi, hk, hr]
  · intro env tr task input mo ht hi hk hr
    simp [generateHandler, truthy_some, ht, hi, hk, hr]
  · intro env tr task input mo ht hi h1 h2 h3 hr
    simp [generateHandler, truthy_some, ht, hi, h1, h2, h3, hr]

/-- C6 (witness): a stubbed vendor 500 with body "rate limited" surfaces as a
500 result whose error text is exactly "rate limited". -/
theorem dispatch_upstream_passthrough_witness :
    generateHandler ⟨some "k", none, none, none, none⟩
      (fun _ => ⟨false, "rate limited", ⟨none, none⟩⟩)
      (some ⟨some "chatgpt", some "biblicalApplications", some "Joseph", some "default"⟩) =
      (ApiResponse.serverError "rate limited",
       [chatgptBuildRequest "k" (systemFor "biblicalApplications" "default") "Joseph"]) :=
  dispatch_upstream_passthrough.1 ⟨some "k", none, none, none, none⟩
    (fun _ => ⟨false, "rate limited", ⟨none, none⟩⟩)
    "biblicalApplications" "Joseph" "default" (by decide) (by decide) (by decide) rfl

/-- C7: a successful vendor response whose choices/candidates array is
empty or absent, or whose generated-text field is absent, yields the success
result with empty output, never an error. -/
theorem dispatch_empty_output :
    (∀ (env : Env) (tr : FetchCall → FetchResp) (task input mo : String),
      task ≠ "" → input ≠ "" → truthy env.OPENAI_API_KEY = true →
      (tr (chatgptBuildRequest (env.OPENAI_API_KEY.getD "") (systemFor task mo) input)).ok = true →
      ((tr (chatgptBuildRequest (env.OPENAI_API_KEY.getD "") (systemFor task mo) input)).json.choices = none
       ∨ (tr (chatgptBuildRequest (env.OPENAI_API_KEY.getD "") (systemFor task mo) input)).json.choices = some []
       ∨ (∃ rest, (tr (chatgptBuildRequest (env.OPENAI_API_KEY.getD "") (systemFor task mo) input)).json.choices
            = some (⟨none⟩ :: rest))
       ∨ (∃ rest, (tr (chatgptBuildRequest (env.OPENAI_API_KEY.getD "") (systemFor task mo) input)).json.choices
            = some (⟨some ⟨none⟩⟩ :: rest))) →
      generateHandler env tr (some ⟨some "chatgpt", some task, some input, some mo⟩) =
        (ApiResponse.success "",
         [chatgptBuildRequest (env.OPENAI_API_KEY.getD "") (systemFor task mo) input]))
    ∧ (∀ (env : Env) (tr : FetchCall → FetchResp) (task input mo : String),
      task ≠ "" → input ≠ "" → truthy env.GOOGLE_API_KEY = true →
      (tr (geminiBuildRequest (env.GOOGLE_API_KEY.getD "") (systemFor task mo) input)).ok = true →
      ((tr (geminiBuildRequest (env.GOOGLE_API_KEY.getD "") (systemFor task mo) input)).json.candidates = none
       ∨ (tr (geminiBuildRequest (env.GOOGLE_API_KEY.getD "") (systemFor task mo) input)).json.candidates = some []
       ∨ (∃ rest, (tr (geminiBuildRequest (env.GOOGLE_API_KEY.getD "") (systemFor task mo) input)).json.candidates
            = some (⟨some ⟨some []⟩⟩ :: rest))) →
      generateHandler env tr (some ⟨some "gemini", some task, some input, some mo⟩) =
        (ApiResponse.success "",
         [geminiBuildRequest (env.GOOGLE_API_KEY.getD "") (systemFor task mo) input])) := by
  constructor
  · intro env tr task input mo ht hi hk hok hc
    rcases hc with h | h | ⟨rest, h⟩ | ⟨rest, h⟩ <;>
      simp [generateHandler, truthy_some, ht, hi, hk, hok, extractChatText, h]
  · intro env tr task input mo ht hi hk hok hc
    rcases hc with h | h | ⟨rest, h⟩ <;>
      simp [generateHandler, truthy_some, ht, hi, hk, hok, extractGeminiText, h, String.join]

/-- C7 (witness): a well-formed success body with an empty choices array
yields ok with empty output. -/
theorem dispatch_empty_output_witness :
    generateHandler ⟨some "k", none, none, none, none⟩
      (fun _ => ⟨true, "", ⟨some [], none⟩⟩)
      (some ⟨some "chatgpt", some "bibleStudyTool", some "Ruth", some "default"⟩) =
      (ApiResponse.success "",
       [chatgptBuildRequest "k" (systemFor "bibleStudyTool" "default") "Ruth"]) :=
  dispatch_empty_output.1 ⟨some "k", none, none, none, none⟩
    (fun _ => ⟨true, "", ⟨some [], none⟩⟩)
    "bibleStudyTool" "Ruth" "default" (by decide) (by decide) (by decide) rfl
    (Or.inr (Or.inl rfl))

/-- C10: an absent (or non-object, hence falsy) request body is replaced by
the empty object, so it produces the same missing-task-and-input client error
as an empty body, with no network call. -/
theorem dispatch_absent_body (env : Env) (tr : FetchCall → FetchResp) :
    generateHandler env tr none = (ApiResponse.clientError "task and input required", [])
    ∧ generateHandler env tr none = generateHandler env tr (some ⟨none, none, none, none⟩) := by
  constructor
  · simp [generateHandler, truthy_none]
  · rfl
